import Mathlib

/-!
Verification development for the force-plate center-of-pressure pipeline
(shared/force_preprocessing/COP_functions.py, class ForcePlateProcessor).

Shallow embedding conventions:
* A CSV file, after the reading loop (lines 133-138 of the source), is a list
  of rows, each row a list of already-stripped cells, plus the file name.
* Floating-point cell values are modelled as Option Rat, where none stands for
  IEEE NaN (the only NaN facts the pipeline uses are that comparisons with NaN
  are false, which the windowing predicate encodes explicitly).
* The lexical behaviour of the Python float() builtin is not re-implemented:
  each cell carries its text together with the outcome float() would give on
  that text (an error, or a value where none again stands for NaN). The
  truthiness test that guards the conversion (an empty string is falsy and
  becomes NaN without calling float()) is modelled explicitly from the text.
-/

set_option autoImplicit false

namespace COP

/-- A floating-point value: some q is a finite value, none is NaN. -/
abbrev Val := Option ℚ

/-- One CSV cell: its stripped text, and the outcome of the Python float()
builtin on that text (error for a non-numeric nonempty string, ok none for a
string parsing to NaN, ok (some q) for a numeric string). -/
structure Cell where
  text : String
  parsed : Except Unit Val

/-- The default cell used when indexing out of range in the model (the source
never actually reads it: every access is guarded by a length test). -/
def blankCell : Cell := ⟨"", Except.error ()⟩

/-- A tokenized input file: the rows produced by the reading loop of
process_csv_file, and the file name used for subject-id recovery. -/
structure FileModel where
  rows : List (List Cell)
  name : String

/-- The TrialData dataclass of the source. -/
structure TrialData where
  subject_id : String
  trial_name : String
  session : String
  sampling_rate : Nat
  time_raw : List Val
  ml_raw : List Val
  ap_raw : List Val
  time_trimmed : List Val
  ml_filtered : List Val
  ap_filtered : List Val

/-! Processor constants (ForcePlateProcessor.__init__). -/

/-- self.expected_sampling_rate = 1500 -/
def expected_sampling_rate : Nat := 1500

/-- self.filter_cutoff = 5 (Hz) -/
def filter_cutoff : ℚ := 5

/-- self.filter_order = 4 -/
def filter_order : Nat := 4

/-- self.start_time = 10 (seconds) -/
def start_time : ℚ := 10

/-- self.end_time = 30 (seconds) -/
def end_time : ℚ := 30

/-!  Signal Extractor: the data loop of process_csv_file (lines 201-217). -/

/-- The value the expression (float(cell) if cell else np.nan) produces:
an empty cell is falsy and yields NaN without parsing; otherwise the
outcome of float() on the text, which may be a parse error. -/
def floatOfCell (c : Cell) : Except Unit Val :=
  if c.text = "" then Except.ok none else c.parsed

/-- Whether floatOfCell succeeds: the cell is empty or parses as a float. -/
def cellOk (c : Cell) : Bool :=
  match floatOfCell c with
  | Except.ok _ => true
  | Except.error _ => false

/-- One iteration of the data loop: a row with at least 28 cells whose cells
0, 26 and 27 all convert yields the triple (time, ml, ap); any shorter row,
or any conversion error, contributes nothing (the three appends in the source
happen only after all three conversions succeeded). -/
def extractRow (row : List Cell) : Option (Val × Val × Val) :=
  if 28 ≤ row.length then
    match floatOfCell (row.getD 0 blankCell), floatOfCell (row.getD 26 blankCell),
          floatOfCell (row.getD 27 blankCell) with
    | Except.ok t, Except.ok m, Except.ok a => some (t, m, a)
    | _, _, _ => none
  else none

/-- A row that the data loop keeps: at least 28 cells and cells 0, 26, 27
each either empty or parseable as a float. -/
def goodRow (row : List Cell) : Bool :=
  decide (28 ≤ row.length) && cellOk (row.getD 0 blankCell)
    && cellOk (row.getD 26 blankCell) && cellOk (row.getD 27 blankCell)

/-- The whole data loop: builds the three lists time_data, ml_data, ap_data
in row order. -/
def extractData : List (List Cell) → List Val × List Val × List Val
  | [] => ([], [], [])
  | row :: rest =>
    let tail := extractData rest
    match extractRow row with
    | some (t, m, a) => (t :: tail.1, m :: tail.2.1, a :: tail.2.2)
    | none => tail

/-! Windowing (lines 235-238). -/

/-- The elementwise mask (time_data >= start) & (time_data <= end).
Both numpy comparisons are false on NaN, so a NaN time fails the mask. -/
def inWindow (lo hi : ℚ) : Val → Bool
  | some t => decide (lo ≤ t) && decide (t ≤ hi)
  | none => false

/-- Boolean-mask indexing xs[mask] where the mask comes from the time list:
keep the entries of xs whose paired time is inside the window. -/
def windowFilter (lo hi : ℚ) (ts xs : List Val) : List Val :=
  ((ts.zip xs).filter (fun p => inWindow lo hi p.1)).map Prod.snd

/-! Metadata Parser (lines 143-191). The regular expressions the source uses
are small enough to implement directly over character lists. -/

/-- Decimal value of a digit string. -/
def digitsVal (cs : List Char) : Nat :=
  cs.foldl (fun acc c => acc * 10 + (c.toNat - 48)) 0

/-- The first maximal run of decimal digits in a character list, if any:
the capture of the leftmost greedy match of one-or-more-digits. -/
def firstDigitRun : List Char → Option (List Char)
  | [] => none
  | c :: rest =>
    if c.isDigit then some (c :: rest.takeWhile Char.isDigit)
    else firstDigitRun rest

/-- re.search for one-or-more-digits over a string, returning the matched
number (the int() of the captured digit run). -/
def searchDigits (s : String) : Option Nat :=
  (firstDigitRun s.toList).map digitsVal

/-- The str.strip method: remove leading and trailing whitespace (the cells
were already stripped by the reading loop, so this second strip is the
identity on every string the pipeline actually passes in). -/
def stripStr (s : String) : String :=
  String.mk (((s.toList.dropWhile Char.isWhitespace).reverse.dropWhile Char.isWhitespace).reverse)

/-- validate_subject_id: full match of the letters e x g m followed by
exactly three digits. -/
def validate_subject_id (s : String) : Bool :=
  let cs := s.toList
  cs.length = 7 && cs.take 4 == ['e', 'x', 'g', 'm'] && (cs.drop 4).all Char.isDigit

/-- Whether the pattern exgm followed by three digits matches at the head of
the character list; if so, the seven matched characters. -/
def matchExgmAt : List Char → Option String
  | 'e' :: 'x' :: 'g' :: 'm' :: d1 :: d2 :: d3 :: _ =>
    if d1.isDigit && d2.isDigit && d3.isDigit then
      some (String.mk ['e', 'x', 'g', 'm', d1, d2, d3])
    else none
  | _ => none

/-- Scan for the leftmost match of the exgm-plus-three-digits pattern. -/
def searchExgmAux : List Char → Option String
  | [] => none
  | c :: rest =>
    match matchExgmAt (c :: rest) with
    | some s => some s
    | none => searchExgmAux rest

/-- re.search of the exgm-plus-three-digits pattern over a string. -/
def searchExgm (s : String) : Option String :=
  searchExgmAux s.toList

/-- Row index 1 of the file, or an empty row when the file has at most one
row (line 146 of the source). -/
def metadataRow (f : FileModel) : List Cell :=
  f.rows.getD 1 []

/-- The sampling-rate cell text: metadata_row[2] if the row is long enough,
else the empty string (line 150). -/
def samplingCellText (f : FileModel) : String :=
  if 2 < (metadataRow f).length then ((metadataRow f).getD 2 blankCell).text else ""

/-- Sampling-rate parsing (lines 149-160): the first digit run of the cell,
or the 1500 default when the cell has no digits. -/
def sampling_rate_of (f : FileModel) : Nat :=
  match searchDigits (samplingCellText f) with
  | some n => n
  | none => expected_sampling_rate

/-- The raw subject id (lines 167-169): metadata_row[7] if the row is long
enough, else the empty string, then stripped. -/
def subjectCellText (f : FileModel) : String :=
  stripStr (if 7 < (metadataRow f).length then ((metadataRow f).getD 7 blankCell).text else "")

/-- Subject-id resolution (lines 174-180): keep a valid parsed id; otherwise
fall back to the leftmost filename match of the id pattern, and keep the
invalid parsed value when the filename has no match either. -/
def resolve_subject_id (raw fname : String) : String :=
  if validate_subject_id raw then raw
  else
    match searchExgm fname with
    | some s => s
    | none => raw

/-- The subject id of a file: the parsed cell, resolved against the name. -/
def subject_id_of (f : FileModel) : String :=
  resolve_subject_id (subjectCellText f) f.name

/-- The trial name (lines 183-185): metadata_row[12] if the row is long
enough, else the empty string, then stripped (validation only warns). -/
def trial_name_of (f : FileModel) : String :=
  stripStr (if 12 < (metadataRow f).length then ((metadataRow f).getD 12 blankCell).text else "")

/-! The per-file pipeline (lines 193-266). -/

/-- Data rows: all_data[4:] (line 194; drop of a short list is empty, which
is what the guarding conditional produces). -/
def dataRows (f : FileModel) : List (List Cell) :=
  f.rows.drop 4

/-- time_data of the file. -/
def time_raw_of (f : FileModel) : List Val :=
  (extractData (dataRows f)).1

/-- ml_data of the file. -/
def ml_raw_of (f : FileModel) : List Val :=
  (extractData (dataRows f)).2.1

/-- ap_data of the file. -/
def ap_raw_of (f : FileModel) : List Val :=
  (extractData (dataRows f)).2.2

/-- time_trimmed (line 236). -/
def time_trimmed_of (f : FileModel) : List Val :=
  windowFilter start_time end_time (time_raw_of f) (time_raw_of f)

/-- ml_trimmed (line 237). -/
def ml_trimmed_of (f : FileModel) : List Val :=
  windowFilter start_time end_time (time_raw_of f) (ml_raw_of f)

/-- ap_trimmed (line 238). -/
def ap_trimmed_of (f : FileModel) : List Val :=
  windowFilter start_time end_time (time_raw_of f) (ap_raw_of f)

/-- The ways a file's processing can raise (modelled exceptions):
division by zero in the cutoff normalization when the parsed sampling rate is
zero; the butter requirement that the normalized cutoff lie strictly between
0 and 1; and the filtfilt requirement that the input be longer than the
default pad length. -/
inductive ProcError where
  | zeroDivision
  | filterDesign
  | padLength

/-- nyquist = sampling_rate / 2; normalized_cutoff = filter_cutoff / nyquist
(lines 100-101, over the rationals). -/
def normalized_cutoff (sampling_rate : ℚ) : ℚ :=
  filter_cutoff / (sampling_rate / 2)

/-- The default filtfilt pad length, 3 * max(len(a), len(b)), where butter of
order n returns n + 1 coefficients in each of a and b. -/
def filtfiltPadlen : Nat := 3 * (filter_order + 1)

/-- apply_butterworth_filter (lines 84-110). The numeric content of the
forward-backward filter is outside this embedding (no claim concerns the
filtered values); the model keeps the shape of the output (filtfilt returns
an array of the input's length) and the exception behaviour: a zero sampling
rate makes the float division for the normalized cutoff raise; butter raises
unless 0 < normalized cutoff < 1; filtfilt raises unless the input is longer
than the pad length. -/
def apply_butterworth_filter (data : List Val) (sampling_rate : Nat) : Except ProcError (List Val) :=
  if sampling_rate = 0 then Except.error ProcError.zeroDivision
  else if 0 < normalized_cutoff (sampling_rate : ℚ) ∧ normalized_cutoff (sampling_rate : ℚ) < 1 then
    if data.length ≤ filtfiltPadlen then Except.error ProcError.padLength
    else Except.ok data
  else Except.error ProcError.filterDesign

/-- process_csv_file (lines 112-270): metadata, extraction, windowing, then
either the empty-window branch with empty filtered outputs (lines 242-245) or
the two filter applications, ml first (lines 248-249), whose exceptions
propagate out of the function. -/
def process_csv_file (f : FileModel) (session : String) : Except ProcError TrialData :=
  if (time_trimmed_of f).length = 0 then
    Except.ok
      { subject_id := subject_id_of f, trial_name := trial_name_of f, session := session,
        sampling_rate := sampling_rate_of f, time_raw := time_raw_of f,
        ml_raw := ml_raw_of f, ap_raw := ap_raw_of f, time_trimmed := time_trimmed_of f,
        ml_filtered := [], ap_filtered := [] }
  else
    match apply_butterworth_filter (ml_trimmed_of f) (sampling_rate_of f),
          apply_butterworth_filter (ap_trimmed_of f) (sampling_rate_of f) with
    | Except.ok mlf, Except.ok apf =>
      Except.ok
        { subject_id := subject_id_of f, trial_name := trial_name_of f, session := session,
          sampling_rate := sampling_rate_of f, time_raw := time_raw_of f,
          ml_raw := ml_raw_of f, ap_raw := ap_raw_of f, time_trimmed := time_trimmed_of f,
          ml_filtered := mlf, ap_filtered := apf }
    | Except.error e, _ => Except.error e
    | Except.ok _, Except.error e => Except.error e

/-! Aggregator: process_all_files (lines 272-330). The dictionary keyed by
subject id is modelled as an insertion-ordered association list; a new key is
appended at the end, an existing key has the record appended to its list. -/

/-- self.processed_data[subject].append(trial), creating the key first when
absent. -/
def addRecord : List (String × List TrialData) → TrialData → List (String × List TrialData)
  | [], td => [(td.subject_id, [td])]
  | (k, ts) :: rest, td =>
    if k = td.subject_id then (k, ts ++ [td]) :: rest
    else (k, ts) :: addRecord rest td

/-- One iteration of the batch loop (lines 307-321): a successful file's
record is added; a raising file is logged and skipped, leaving the aggregate
unchanged. -/
def processStep (d : List (String × List TrialData)) (fs : FileModel × String) :
    List (String × List TrialData) :=
  match process_csv_file fs.1 fs.2 with
  | Except.ok td => addRecord d td
  | Except.error _ => d

/-- Whether a discovered file processes without raising. -/
def succeeds (fs : FileModel × String) : Bool :=
  match process_csv_file fs.1 fs.2 with
  | Except.ok _ => true
  | Except.error _ => false

/-- The batch loop over the discovered (file, session) pairs. It is a total
function: a per-file exception is consumed by processStep and never reaches
the caller. -/
def process_all_files (files : List (FileModel × String)) : List (String × List TrialData) :=
  files.foldl processStep []

/-- Total number of records in the aggregate, across all subjects. -/
def totalRecords (d : List (String × List TrialData)) : Nat :=
  (d.map fun kv => kv.2.length).sum

/-! Concrete inputs used by witnesses and counterexamples. -/

/-- A cell whose text parses as the given rational. -/
def numCell (s : String) (q : ℚ) : Cell := ⟨s, Except.ok (some q)⟩

/-- A nonempty cell on which float() raises. -/
def badCell (s : String) : Cell := ⟨s, Except.error ()⟩

/-! Lemmas. -/

/-- The data loop keeps a row exactly when goodRow holds of it. -/
theorem extractRow_isSome (row : List Cell) : (extractRow row).isSome = goodRow row := by
  unfold extractRow goodRow cellOk
  rcases h0 : floatOfCell (row.getD 0 blankCell) with _ | t <;>
  rcases h1 : floatOfCell (row.getD 26 blankCell) with _ | m <;>
  rcases h2 : floatOfCell (row.getD 27 blankCell) with _ | a <;>
  by_cases h : 28 ≤ row.length <;>
  simp [h, h0, h1, h2]

/-- Unfolding equation for the data loop on a kept row. -/
theorem extractData_cons_some (row : List Cell) (rest : List (List Cell)) (t m a : Val)
    (h : extractRow row = some (t, m, a)) :
    extractData (row :: rest) =
      ((t :: (extractData rest).1, m :: (extractData rest).2.1, a :: (extractData rest).2.2)) := by
  simp [extractData, h]

/-- Unfolding equation for the data loop on a dropped row. -/
theorem extractData_cons_none (row : List Cell) (rest : List (List Cell))
    (h : extractRow row = none) :
    extractData (row :: rest) = extractData rest := by
  simp [extractData, h]

/-- C1: for every tokenized trial file, the data loop of process_csv_file
produces three sequences (time, medial-lateral, anterior-posterior) of equal
length; that length is the number of data rows with at least 28 cells whose
cells 0, 26 and 27 each either parse as a float or are empty; and a row that
is too short or has a failing conversion contributes nothing to any of the
three sequences. -/
theorem signal_extractor_lengths :
    (∀ rows : List (List Cell),
      (extractData rows).1.length = (extractData rows).2.1.length ∧
      (extractData rows).2.1.length = (extractData rows).2.2.length ∧
      (extractData rows).1.length = (rows.filter goodRow).length) ∧
    (∀ (row : List Cell) (rest : List (List Cell)),
      goodRow row = false → extractData (row :: rest) = extractData rest) := by
  have hskip : ∀ (row : List Cell) (rest : List (List Cell)),
      goodRow row = false → extractData (row :: rest) = extractData rest := by
    intro row rest h
    have hs := extractRow_isSome row
    rw [h] at hs
    exact extractData_cons_none row rest (Option.not_isSome_iff_eq_none.mp (by simp [hs]))
  refine ⟨?_, hskip⟩
  intro rows
  induction rows with
  | nil => simp [extractData]
  | cons row rest ih =>
    obtain ⟨ih1, ih2, ih3⟩ := ih
    rcases hr : extractRow row with _ | v
    · have hg : goodRow row = false := by
        have hs := extractRow_isSome row
        rw [hr] at hs
        exact hs.symm
      rw [extractData_cons_none row rest hr, List.filter_cons]
      simp only [hg, Bool.false_eq_true, if_false]
      exact ⟨ih1, ih2, ih3⟩
    · obtain ⟨t, m, a⟩ := v
      have hg : goodRow row = true := by
        have hs := extractRow_isSome row
        rw [hr] at hs
        exact hs.symm
      rw [extractData_cons_some row rest t m a hr, List.filter_cons]
      simp only [hg, if_true, List.length_cons]
      omega

/-- C1 witness: a concrete batch of three rows, of which only the 28-cell
fully parseable one survives. -/
theorem signal_extractor_lengths_witness :
    goodRow (badCell "x" :: List.replicate 27 blankCell) = false ∧
      extractData [badCell "x" :: List.replicate 27 blankCell] = extractData [] :=
  ⟨by decide,
   signal_extractor_lengths.2 (badCell "x" :: List.replicate 27 blankCell) [] (by decide)⟩

/-! Windowing lemmas. -/

/-- Mask indexing on a pair of cons cells. -/
theorem windowFilter_cons_cons (lo hi : ℚ) (t x : Val) (ts xs : List Val) :
    windowFilter lo hi (t :: ts) (x :: xs) =
      if inWindow lo hi t then x :: windowFilter lo hi ts xs
      else windowFilter lo hi ts xs := by
  by_cases h : inWindow lo hi t = true <;> simp [windowFilter, h]

/-- Mask indexing with an empty data list. -/
theorem windowFilter_nil_right (lo hi : ℚ) (ts : List Val) :
    windowFilter lo hi ts [] = [] := by
  cases ts <;> rfl

/-- Windowing the time list by itself is an ordinary filter. -/
theorem windowFilter_self (lo hi : ℚ) (ts : List Val) :
    windowFilter lo hi ts ts = ts.filter (inWindow lo hi) := by
  induction ts with
  | nil => rfl
  | cons t ts ih =>
    rw [windowFilter_cons_cons, List.filter_cons, ih]

/-- Re-filtering an already-windowed pair of sequences with the windowed time
list changes nothing. -/
theorem windowFilter_refilter (lo hi : ℚ) (ts : List Val) : ∀ xs : List Val,
    windowFilter lo hi (ts.filter (inWindow lo hi)) (windowFilter lo hi ts xs) =
      windowFilter lo hi ts xs := by
  induction ts with
  | nil => intro xs; simp [windowFilter]
  | cons t ts ih =>
    intro xs
    cases xs with
    | nil => simp [windowFilter_nil_right, windowFilter]
    | cons x xs =>
      by_cases h : inWindow lo hi t = true <;>
        simp [List.filter_cons, windowFilter_cons_cons, h, ih]

/-- C4: windowing is idempotent: applying the inclusive window mask (with the
source defaults, start_time 10 and end_time 30) to sequences already windowed
with the same bounds returns those sequences unchanged. -/
theorem windowing_idempotent (lo hi : ℚ) (ts xs : List Val) :
    windowFilter lo hi (windowFilter lo hi ts ts) (windowFilter lo hi ts ts) =
        windowFilter lo hi ts ts ∧
      windowFilter lo hi (windowFilter lo hi ts ts) (windowFilter lo hi ts xs) =
        windowFilter lo hi ts xs ∧
      start_time = 10 ∧ end_time = 30 := by
  refine ⟨?_, ?_, rfl, rfl⟩
  · have h := windowFilter_refilter lo hi ts ts
    rw [windowFilter_self lo hi ts] at h ⊢
    exact h
  · have h := windowFilter_refilter lo hi ts xs
    rw [windowFilter_self lo hi ts]
    exact h

/-! Aggregator lemmas. -/

/-- Adding one record to the aggregate raises its total count by one. -/
theorem totalRecords_addRecord (d : List (String × List TrialData)) (td : TrialData) :
    totalRecords (addRecord d td) = totalRecords d + 1 := by
  induction d with
  | nil => simp [addRecord, totalRecords]
  | cons kv rest ih =>
    obtain ⟨k, ts⟩ := kv
    by_cases h : k = td.subject_id
    · simp [addRecord, totalRecords, h]
      omega
    · simp only [addRecord, if_neg h, totalRecords, List.map_cons, List.sum_cons]
      simp only [totalRecords] at ih
      omega

/-- Unrolling the batch loop from any starting aggregate. -/
theorem totalRecords_foldl (files : List (FileModel × String)) :
    ∀ d : List (String × List TrialData),
      totalRecords (files.foldl processStep d) = totalRecords d + files.countP succeeds := by
  induction files with
  | nil => intro d; simp
  | cons fs files ih =>
    intro d
    rw [List.foldl_cons, ih]
    rcases h : process_csv_file fs.1 fs.2 with e | td
    · have h1 : processStep d fs = d := by simp [processStep, h]
      have h2 : succeeds fs = false := by simp [succeeds, h]
      rw [h1, List.countP_cons, h2]
      simp
    · have h1 : processStep d fs = addRecord d td := by simp [processStep, h]
      have h2 : succeeds fs = true := by simp [succeeds, h]
      rw [h1, List.countP_cons, h2, totalRecords_addRecord]
      simp
      omega

/-- C2: the batch loop of process_all_files is total (it consumes every
per-file exception instead of propagating it), a raising file leaves the
aggregate untouched, and the aggregate holds exactly one record per
successfully processed file. -/
theorem process_all_files_aggregate :
    (∀ files : List (FileModel × String),
      totalRecords (process_all_files files) = files.countP succeeds) ∧
    (∀ (d : List (String × List TrialData)) (fs : FileModel × String),
      succeeds fs = false → processStep d fs = d) := by
  constructor
  · intro files
    have h := totalRecords_foldl files []
    simpa [process_all_files, totalRecords] using h
  · intro d fs h
    unfold processStep
    rcases hp : process_csv_file fs.1 fs.2 with e | td
    · rfl
    · unfold succeeds at h
      rw [hp] at h
      simp at h

/-- A data row with a time of 10 seconds and valid zero readings. -/
def row10 : List Cell := numCell "10" 10 :: List.replicate 27 (numCell "0" 0)

/-- A file whose metadata sampling-rate cell parses to 0 and which has one
data row inside the window: its filtering step raises a division by zero when
the cutoff is normalized, so the file fails. -/
def zeroRateFile : FileModel :=
  ⟨[[], [blankCell, blankCell, numCell "0" 0], [], [], row10], "exgm002_x.csv"⟩

/-- C2 witness: a concretely failing file is skipped and adds nothing. -/
theorem process_all_files_aggregate_witness :
    succeeds (zeroRateFile, "baseline") = false ∧
      processStep [] (zeroRateFile, "baseline") = [] :=
  ⟨by decide, process_all_files_aggregate.2 [] (zeroRateFile, "baseline") (by decide)⟩

/-! Metadata defaulting. -/

/-- A file whose metadata row (index 1) is present but empty. -/
def shortMetaFile : FileModel := ⟨[[], []], "bad.csv"⟩

/-- C3 counterexample: on a file whose metadata row is too short, the record
carries the empty string as subject id and trial name, not the literal
unknown (the unknown fallback in the source sits in except branches that
cannot fire, because every read is guarded by a length test); the 1500
sampling-rate default does hold. -/
theorem metadata_defaults_counterexample :
    (process_csv_file shortMetaFile "baseline").toOption.map
        (fun r => (r.subject_id, r.trial_name, r.sampling_rate)) =
      some ("", "", 1500) ∧ ("" : String) ≠ "unknown" :=
  ⟨by decide, by decide⟩

/-- C3 amended: for every file whose metadata row is missing or too short to
contain the relevant cells (at most two cells), the parser yields the default
sampling rate 1500, and the empty string (not the literal unknown) for both
the subject id and the trial name; the empty subject id may then be replaced
by a pattern match found in the file name. -/
theorem metadata_defaults (f : FileModel) (h : (metadataRow f).length ≤ 2) :
    sampling_rate_of f = 1500 ∧ subjectCellText f = "" ∧ trial_name_of f = "" ∧
      subject_id_of f =
        (match searchExgm f.name with
          | some s => s
          | none => "") := by
  have h2 : ¬ 2 < (metadataRow f).length := by omega
  have h7 : ¬ 7 < (metadataRow f).length := by omega
  have h12 : ¬ 12 < (metadataRow f).length := by omega
  have hs : samplingCellText f = "" := by
    unfold samplingCellText
    rw [if_neg h2]
  have hsub : subjectCellText f = "" := by
    unfold subjectCellText
    rw [if_neg h7]
    decide
  refine ⟨?_, hsub, ?_, ?_⟩
  · unfold sampling_rate_of
    rw [hs]
    decide
  · unfold trial_name_of
    rw [if_neg h12]
    decide
  · have hv : validate_subject_id "" = false := by decide
    unfold subject_id_of resolve_subject_id
    rw [hsub]
    simp [hv]

/-- C3 amended witness: the concrete short-metadata file. -/
theorem metadata_defaults_witness :
    (metadataRow shortMetaFile).length ≤ 2 ∧
      (sampling_rate_of shortMetaFile = 1500 ∧ subjectCellText shortMetaFile = "" ∧
        trial_name_of shortMetaFile = "" ∧
        subject_id_of shortMetaFile =
          (match searchExgm shortMetaFile.name with
            | some s => s
            | none => "")) :=
  ⟨by decide, metadata_defaults shortMetaFile (by decide)⟩

/-! Subject-id recovery. -/

/-- The file of the worked example: named exgm047_shoulder1-2.csv, with an
empty subject cell (index 7) in its metadata row. -/
def exampleRecoveryFile : FileModel :=
  ⟨[[], [blankCell, blankCell, numCell "1500" 1500, blankCell, blankCell, blankCell,
         blankCell, badCell ""]],
   "exgm047_shoulder1-2.csv"⟩

/-- C5: when the parsed subject id fails the pattern, a filename match of the
pattern replaces it, and an absent filename match keeps the invalid parsed
value; in particular the exgm047_shoulder1-2.csv example with an empty
metadata subject cell resolves to exgm047. -/
theorem subject_id_recovery :
    (∀ raw fname s, validate_subject_id raw = false → searchExgm fname = some s →
      resolve_subject_id raw fname = s) ∧
    (∀ raw fname, validate_subject_id raw = false → searchExgm fname = none →
      resolve_subject_id raw fname = raw) ∧
    subject_id_of exampleRecoveryFile = "exgm047" := by
  refine ⟨?_, ?_, by decide⟩
  · intro raw fname s hv hm
    unfold resolve_subject_id
    rw [hv, hm]
    simp
  · intro raw fname hv hm
    unfold resolve_subject_id
    rw [hv, hm]
    simp

/-- C5 witness: the concrete recovery instance. -/
theorem subject_id_recovery_witness :
    validate_subject_id "" = false ∧
      searchExgm "exgm047_shoulder1-2.csv" = some "exgm047" ∧
      resolve_subject_id "" "exgm047_shoulder1-2.csv" = "exgm047" :=
  ⟨by decide, by decide,
   subject_id_recovery.1 "" "exgm047_shoulder1-2.csv" "exgm047" (by decide) (by decide)⟩

/-! Filter cutoff normalization. -/

/-- C6: the normalized cutoff passed to filter design is the 5 Hz cutoff over
the Nyquist frequency, 5 / (s / 2); at the expected 1500 Hz sampling rate it
is 5 / 750, which is within 1e-6 of 0.006667. -/
theorem normalized_cutoff_value :
    (∀ s : ℚ, normalized_cutoff s = 5 / (s / 2)) ∧
      normalized_cutoff 1500 = 5 / 750 ∧
      |normalized_cutoff 1500 - 6667 / 1000000| ≤ 1 / 1000000 := by
  have h : normalized_cutoff 1500 = 5 / 750 := by
    norm_num [normalized_cutoff, filter_cutoff]
  refine ⟨fun s => rfl, h, ?_⟩
  rw [h, abs_le]
  constructor <;> norm_num

/-! Empty-window guard. -/

/-- C7: a file in which zero samples fall in the window yields a record with
empty filtered medial-lateral and anterior-posterior sequences, without
raising: the empty-window branch skips the filter entirely. -/
theorem empty_window_skips_filter (f : FileModel) (sess : String)
    (h : (time_trimmed_of f).length = 0) :
    ∃ r : TrialData, process_csv_file f sess = Except.ok r ∧
      r.ml_filtered = [] ∧ r.ap_filtered = [] := by
  unfold process_csv_file
  rw [if_pos h]
  exact ⟨_, rfl, rfl, rfl⟩

/-- A file with no data rows at all. -/
def noWindowFile : FileModel := ⟨[], "exgm003_y.csv"⟩

/-- C7 witness: the concrete file with an empty window. -/
theorem empty_window_skips_filter_witness :
    (time_trimmed_of noWindowFile).length = 0 ∧
      ∃ r : TrialData, process_csv_file noWindowFile "baseline" = Except.ok r ∧
        r.ml_filtered = [] ∧ r.ap_filtered = [] :=
  ⟨by decide, empty_window_skips_filter noWindowFile "baseline" (by decide)⟩

/-! Sampling-rate invariant. -/

/-- A file whose sampling cell is the single digit 0 and which has no data
rows, so the empty-window branch completes and a record is produced. -/
def zeroRateEmptyFile : FileModel :=
  ⟨[[], [blankCell, blankCell, numCell "0" 0]], "x.csv"⟩

/-- C8 counterexample: a produced record whose sampling rate is 0, hence not
a positive integer: the digit search accepts a run of zeros and keeps it. -/
theorem sampling_rate_positive_counterexample :
    (process_csv_file zeroRateEmptyFile "baseline").toOption.map
      (fun r => r.sampling_rate) = some 0 := by
  decide

/-- C8 amended: every produced record's sampling rate is a nonnegative
integer, and it is positive unless the first digit run of the metadata
sampling-rate cell has value 0, in which case the rate is 0. -/
theorem sampling_rate_amended (f : FileModel) (sess : String) (r : TrialData)
    (h : process_csv_file f sess = Except.ok r) :
    0 < r.sampling_rate ∨
      (r.sampling_rate = 0 ∧ searchDigits (samplingCellText f) = some 0) := by
  have hr : r.sampling_rate = sampling_rate_of f := by
    unfold process_csv_file at h
    split at h
    · rw [Except.ok.injEq] at h
      rw [← h]
    · split at h
      · rw [Except.ok.injEq] at h
        rw [← h]
      · exact Except.noConfusion h
      · exact Except.noConfusion h
  rw [hr]
  unfold sampling_rate_of
  rcases hd : searchDigits (samplingCellText f) with _ | n
  · left
    decide
  · cases n with
    | zero => exact Or.inr ⟨rfl, rfl⟩
    | succ m => exact Or.inl (Nat.succ_pos m)

/-- The record zeroRateEmptyFile produces. -/
def zeroRateRecord : TrialData :=
  { subject_id := "", trial_name := "", session := "baseline", sampling_rate := 0,
    time_raw := [], ml_raw := [], ap_raw := [], time_trimmed := [],
    ml_filtered := [], ap_filtered := [] }

/-- C8 amended witness: the concrete zero-rate record. -/
theorem sampling_rate_amended_witness :
    process_csv_file zeroRateEmptyFile "baseline" = Except.ok zeroRateRecord ∧
      (0 < zeroRateRecord.sampling_rate ∨
        (zeroRateRecord.sampling_rate = 0 ∧
          searchDigits (samplingCellText zeroRateEmptyFile) = some 0)) :=
  ⟨by rfl, sampling_rate_amended zeroRateEmptyFile "baseline" zeroRateRecord (by rfl)⟩

/-! Short trimmed sequences. -/

/-- Filtering any sequence of at most the pad length raises one of the
modelled exceptions, whatever the sampling rate. -/
theorem apply_butterworth_filter_short (data : List Val) (s : Nat)
    (h : data.length ≤ filtfiltPadlen) :
    ∃ e, apply_butterworth_filter data s = Except.error e := by
  unfold apply_butterworth_filter
  by_cases h0 : s = 0
  · rw [if_pos h0]
    exact ⟨_, rfl⟩
  · rw [if_neg h0]
    by_cases hw : 0 < normalized_cutoff (s : ℚ) ∧ normalized_cutoff (s : ℚ) < 1
    · rw [if_pos hw, if_pos h]
      exact ⟨_, rfl⟩
    · rw [if_neg hw]
      exact ⟨_, rfl⟩

/-- The windowed data list is never longer than the windowed time list. -/
theorem windowFilter_length_le (lo hi : ℚ) (ts : List Val) : ∀ xs : List Val,
    (windowFilter lo hi ts xs).length ≤ (windowFilter lo hi ts ts).length := by
  induction ts with
  | nil => intro xs; simp [windowFilter]
  | cons t ts ih =>
    intro xs
    cases xs with
    | nil =>
      rw [windowFilter_nil_right]
      simp
    | cons x xs =>
      rw [windowFilter_cons_cons, windowFilter_cons_cons]
      by_cases h : inWindow lo hi t = true
      · rw [if_pos h, if_pos h]
        exact Nat.succ_le_succ (ih xs)
      · rw [if_neg h, if_neg h]
        exact ih xs

/-- C9: the empty-input guard covers only the empty case: a file whose
trimmed sequence is nonempty but no longer than the filtfilt pad length (15
samples for the 4th-order design) makes apply_butterworth_filter raise, so
the whole file fails and is excluded from the aggregate instead of yielding a
record with short filtered sequences. -/
theorem short_window_filter_error (f : FileModel) (sess : String)
    (h0 : (time_trimmed_of f).length ≠ 0) (h15 : (time_trimmed_of f).length ≤ 15) :
    (∃ e, process_csv_file f sess = Except.error e) ∧
      process_all_files [(f, sess)] = [] := by
  have hml : (ml_trimmed_of f).length ≤ 15 := by
    have hle := windowFilter_length_le start_time end_time (time_raw_of f) (ml_raw_of f)
    unfold ml_trimmed_of
    unfold time_trimmed_of at h15
    omega
  have hpad : filtfiltPadlen = 15 := by decide
  obtain ⟨e, he⟩ :
      ∃ e, apply_butterworth_filter (ml_trimmed_of f) (sampling_rate_of f) =
        Except.error e := by
    apply apply_butterworth_filter_short
    rw [hpad]
    exact hml
  have hproc : process_csv_file f sess = Except.error e := by
    unfold process_csv_file
    rw [if_neg h0, he]
  refine ⟨⟨e, hproc⟩, ?_⟩
  unfold process_all_files
  simp [processStep, hproc]

/-- A file with the expected 1500 Hz sampling rate and exactly one data row
inside the window: too short for filtfilt. -/
def shortWindowFile : FileModel :=
  ⟨[[], [blankCell, blankCell, numCell "1500" 1500], [], [], row10], "exgm001_x.csv"⟩

/-- C9 witness: the concrete one-sample-window file. -/
theorem short_window_filter_error_witness :
    (time_trimmed_of shortWindowFile).length ≠ 0 ∧
      (time_trimmed_of shortWindowFile).length ≤ 15 ∧
      ((∃ e, process_csv_file shortWindowFile "baseline" = Except.error e) ∧
        process_all_files [(shortWindowFile, "baseline")] = []) :=
  ⟨by decide, by decide,
   short_window_filter_error shortWindowFile "baseline" (by decide) (by decide)⟩

/-! NaN times and windowing. -/

/-- C10: a wide-enough data row with an empty time cell is retained in the
raw arrays with a NaN time; the window mask rejects NaN under any bounds; and
therefore the trimmed time sequence of every file holds no NaN, even though
the raw one may. -/
theorem nan_time_windowing :
    (∀ lo hi : ℚ, inWindow lo hi none = false) ∧
    (∀ row : List Cell, 28 ≤ row.length → (row.getD 0 blankCell).text = "" →
      cellOk (row.getD 26 blankCell) = true → cellOk (row.getD 27 blankCell) = true →
      ∃ m a, extractRow row = some (none, m, a)) ∧
    (∀ f : FileModel, ∀ v ∈ time_trimmed_of f, v.isSome) := by
  refine ⟨fun lo hi => rfl, ?_, ?_⟩
  · intro row hlen h0 h26 h27
    have ht : floatOfCell (row.getD 0 blankCell) = Except.ok none := by
      unfold floatOfCell
      rw [if_pos h0]
    obtain ⟨m, hm⟩ : ∃ m, floatOfCell (row.getD 26 blankCell) = Except.ok m := by
      unfold cellOk at h26
      rcases hx : floatOfCell (row.getD 26 blankCell) with _ | m
      · rw [hx] at h26
        simp at h26
      · exact ⟨m, rfl⟩
    obtain ⟨a, ha⟩ : ∃ a, floatOfCell (row.getD 27 blankCell) = Except.ok a := by
      unfold cellOk at h27
      rcases hx : floatOfCell (row.getD 27 blankCell) with _ | a
      · rw [hx] at h27
        simp at h27
      · exact ⟨a, rfl⟩
    refine ⟨m, a, ?_⟩
    unfold extractRow
    rw [if_pos hlen, ht, hm, ha]
  · intro f v hv
    unfold time_trimmed_of at hv
    rw [windowFilter_self, List.mem_filter] at hv
    rcases v with _ | q
    · exact absurd hv.2 (by decide)
    · rfl

/-- A 28-cell data row whose time cell is empty and whose other cells are
empty as well (empty cells convert to NaN, not to errors). -/
def emptyTimeRow : List Cell := List.replicate 28 blankCell

/-- C10 witness: the empty-time row is retained with a NaN time, and a
concrete trimmed time sequence membership is NaN-free. -/
theorem nan_time_windowing_witness :
    28 ≤ emptyTimeRow.length ∧ (emptyTimeRow.getD 0 blankCell).text = "" ∧
      cellOk (emptyTimeRow.getD 26 blankCell) = true ∧
      cellOk (emptyTimeRow.getD 27 blankCell) = true ∧
      (∃ m a, extractRow emptyTimeRow = some (none, m, a)) ∧
      (some (10 : ℚ) : Val) ∈ time_trimmed_of shortWindowFile ∧
      (some (10 : ℚ) : Val).isSome :=
  ⟨by decide, by decide, by decide, by decide,
   nan_time_windowing.2.1 emptyTimeRow (by decide) (by decide) (by decide) (by decide),
   by decide,
   nan_time_windowing.2.2 shortWindowFile (some (10 : ℚ)) (by decide)⟩

end COP
